import Mathlib

/-!
Verification development for the trickle subscriber
(trickle/trickle_subscriber.go) and the switchable segment reader
(media/segment_reader.go).

The Go code is embedded shallowly: subscriber state is an explicit record,
and each operation is a pure state transition. Network effects (the results
of the connect/preconnect HTTP calls) are supplied by the environment as
explicit `NetResult` values, so every definition is executable. The
background look-ahead goroutine launched by Read serializes on the same
mutex as Read itself, so a whole execution is a sequence of Read steps and
backgroundPreconnect steps applied to the shared state.
-/

/-- Value of one decimal digit; none when the character is not a digit. -/
def digitVal (c : Char) : Option Nat :=
  if c.isDigit then some (c.toNat - '0'.toNat) else none

/-- Accumulating run of decimal digits; none on the first non-digit. -/
def parseDigitsAux (acc : Nat) : List Char → Option Nat
  | [] => some acc
  | c :: cs =>
    match digitVal c with
    | some d => parseDigitsAux (acc * 10 + d) cs
    | none => none

/-- Run of decimal digits: at least one digit and nothing else. -/
def parseDigits : List Char → Option Nat
  | [] => none
  | cs => parseDigitsAux 0 cs

/-- Model of strconv.Atoi as used by GetSeq: an optional sign followed by one
or more decimal digits. The result is none exactly when Go's Atoi reports a
non-nil error: on an empty string, a stray character, or a value outside the
64-bit int range (ErrRange). -/
def Atoi (s : String) : Option Int :=
  match s.data with
  | '-' :: rest =>
    match parseDigits rest with
    | some n => if n ≤ 2 ^ 63 then some (-(n : Int)) else none
    | none => none
  | '+' :: rest =>
    match parseDigits rest with
    | some n => if n < 2 ^ 63 then some ((n : Int)) else none
    | none => none
  | cs =>
    match parseDigits cs with
    | some n => if n < 2 ^ 63 then some ((n : Int)) else none
    | none => none

/-- One fetched segment result (an *http.Response): the two protocol headers
the subscriber inspects, plus a body identity so that distinct connections
with equal headers stay distinguishable (the Go value is a pointer). An
absent header is the empty string, exactly what Header.Get returns. -/
structure Response where
  seqHeader : String
  closedHeader : String
  bodyId : Nat
  deriving DecidableEq

/-- GetSeq (trickle_subscriber.go, lines 40-52): -99 for a nil response, -98
when the Lp-Trickle-Seq header is missing or does not parse, otherwise the
parsed sequence number. -/
def GetSeq (resp : Option Response) : Int :=
  match resp with
  | none => -99
  | some r =>
    match Atoi r.seqHeader with
    | none => -98
    | some i => i

/-- IsEOS (lines 54-56): the Lp-Trickle-Closed header is non-empty. -/
def IsEOS (resp : Response) : Bool :=
  resp.closedHeader != ""

/-- TrickleSubscriber state (lines 21-29): endpoint url, the pending
preconnected response if any, the segment index to request next, and the
count of consecutive preconnect errors. The mutex is modeled by treating
Read and the background preconnect as atomic steps on this record. -/
structure TrickleSubscriber where
  url : String
  pendingGet : Option Response
  idx : Int
  preconnectErrorCount : Int
  deriving DecidableEq

/-- NewTrickleSubscriber (lines 32-38): no preconnect yet, index -1, the
shortcut for latest. -/
def NewTrickleSubscriber (url : String) : TrickleSubscriber :=
  { url := url, pendingGet := none, idx := -1, preconnectErrorCount := 0 }

/-- URL built by connect (line 59): fmt.Sprintf of the endpoint url and the
current index. -/
def connectUrl (c : TrickleSubscriber) : String :=
  c.url ++ "/" ++ toString c.idx

/-- Outcome of one preconnect() call, supplied by the environment: the HTTP
response on success, or the error message connect reported. -/
abbrev NetResult := Except String Response

/-- Caller-visible outcome of one Read call. The exhausted constructor is the
Hit-max-preconnects error (line 135); eos is the EOS sentinel error (line
154); err carries an error surfaced from the synchronous preconnect. -/
inductive ReadResult where
  | exhausted
  | err (e : String)
  | eos
  | stream (conn : Response)
  deriving DecidableEq

/-- Everything one Read call produced: the return value, the subscriber state
at mutex release, whether a synchronous preconnect ran, and whether the
background preconnect goroutine (lines 164-181) was launched. -/
structure ReadOutcome where
  result : ReadResult
  state : TrickleSubscriber
  syncAttempted : Bool
  backgroundLaunched : Bool
  deriving DecidableEq

/-- Two's-complement wraparound of Go's 64-bit int arithmetic: the result is
the representative of n in the interval from -(2 ^ 63) up to 2 ^ 63 - 1. -/
def wrap64 (n : Int) : Int :=
  (n + 2 ^ 63) % 2 ^ 64 - 2 ^ 63

/-- Index update applied after a successful non-EOS fetch (lines 157-161, and
identically lines 175-178): the source binds GetSeq of the connection to a
local and advances the tracked index to that value plus one unless the value
is -1. The idx field is a Go int, so the increment is 64-bit arithmetic: at
sequence 2 ^ 63 - 1, the largest value Atoi accepts, it wraps to -(2 ^ 63). -/
def advanceIdx (c : TrickleSubscriber) (conn : Response) : TrickleSubscriber :=
  if GetSeq (some conn) ≠ -1 then
    { c with idx := wrap64 (GetSeq (some conn) + 1) }
  else c

/-- The connection a Read call operates on: the pending one when present,
otherwise the result of the synchronous preconnect. -/
def usedConn (c : TrickleSubscriber) (net : NetResult) : Option Response :=
  match c.pendingGet with
  | some conn => some conn
  | none =>
    match net with
    | .ok p => some p
    | .error _ => none

/-- TrickleSubscriber.Read (lines 124-187) as one atomic step under the
subscriber mutex. `net` is the outcome the synchronous preconnect would
produce if invoked (it is unused when a pending connection exists). The
source order is mirrored: the max-preconnect guard first; then the pending
lookup, with a synchronous preconnect when the pending slot is empty (an
error increments the counter and returns, a success resets it); then the EOS
check; then the index advance and the launch of the background preconnect.
Note that the source never clears pendingGet when consuming it. -/
def TrickleSubscriber.Read (c : TrickleSubscriber) (net : NetResult) : ReadOutcome :=
  if c.preconnectErrorCount > 5 then
    ⟨.exhausted, c, false, false⟩
  else
    match c.pendingGet with
    | none =>
      match net with
      | .error e =>
        ⟨.err e, { c with preconnectErrorCount := c.preconnectErrorCount + 1 }, true, false⟩
      | .ok p =>
        if IsEOS p then
          ⟨.eos, { c with preconnectErrorCount := 0 }, true, false⟩
        else
          ⟨.stream p, advanceIdx { c with preconnectErrorCount := 0 } p, true, true⟩
    | some conn =>
      if IsEOS conn then
        ⟨.eos, c, false, false⟩
      else
        ⟨.stream conn, advanceIdx c conn, false, true⟩

/-- The background goroutine body (lines 164-181), which runs later under the
same mutex: on error it increments the counter; on success it stores the new
pending connection, advances the index the same way Read does, and resets
the counter. -/
def backgroundPreconnect (c : TrickleSubscriber) (net : NetResult) : TrickleSubscriber :=
  match net with
  | .error _ => { c with preconnectErrorCount := c.preconnectErrorCount + 1 }
  | .ok nextConn =>
    { advanceIdx { c with pendingGet := some nextConn } nextConn with
        preconnectErrorCount := 0 }

/-- Outcomes of consecutive Read calls, each seeing the state the previous
call left behind. -/
def ReadSeq (c : TrickleSubscriber) : List NetResult → List ReadOutcome
  | [] => []
  | net :: rest => c.Read net :: ReadSeq (c.Read net).state rest

/-- Outcome of the (n+1)-th Read call when every synchronous preconnect
fails with the same connect error. -/
def iterateReadErr (c : TrickleSubscriber) : Nat → ReadOutcome
  | 0 => c.Read (.error ("connect refused"))
  | n + 1 => iterateReadErr (c.Read (.error ("connect refused"))).state n

/-- Net effect on the subscriber of a run of successful non-EOS fetches: each
fetched response advances the index via advanceIdx, whether it was consumed
synchronously by Read or stored by the background preconnect. -/
def fetchTrace (c : TrickleSubscriber) : List Response → TrickleSubscriber
  | [] => c
  | r :: t => fetchTrace (advanceIdx c r) t

/-- Concrete sequence number of a response, if any: a parsed Lp-Trickle-Seq
value different from the -1 sentinel. -/
def concreteSeq (r : Response) : Option Int :=
  match Atoi r.seqHeader with
  | some i => if i = -1 then none else some i
  | none => none

/-- Last concrete sequence number in a run of responses, starting from a
previously observed one. -/
def lastConcreteAux (acc : Option Int) : List Response → Option Int
  | [] => acc
  | r :: t =>
    lastConcreteAux (match concreteSeq r with | some i => some i | none => acc) t

/-- Last concrete sequence number carried by a run of responses, if any. -/
def lastConcrete (l : List Response) : Option Int :=
  lastConcreteAux none l

/-- A response whose sequence header parses to a value small enough that the
advance to the next index cannot overflow a 64-bit int. -/
def seqOk (r : Response) : Bool :=
  match Atoi r.seqHeader with
  | some i => decide (i < 2 ^ 63 - 1)
  | none => false

/-- Read error taxonomy visible to the segment reader: io.EOF. -/
inductive MediaReadError where
  | eof
  deriving DecidableEq

/-- EOSReader (segment_reader.go, line 16): the empty struct whose Read method
always reports end of data. -/
structure EOSReader where
  deriving DecidableEq

/-- EOSReader.Read (lines 18-20): whatever the buffer, report zero bytes read
and io.EOF. The byte slice argument is abstracted by its length, which the
method ignores. -/
def EOSReader.Read (_r : EOSReader) (_p : Nat) : Nat × Option MediaReadError :=
  (0, some .eof)

/-- A byte stream handed to a segment handler: either a real segment stream,
identified abstractly, or the synthetic EOSReader value built by Close. -/
inductive HandlerStream where
  | segment (id : Nat)
  | eosReader (r : EOSReader)
  deriving DecidableEq

/-- Dispatcher state (lines 22-25): the single currently active handler. The
handler type is abstract; the RWMutex is modeled by the acquisition modes
below. -/
structure SwitchableSegmentReader (H : Type) where
  reader : H

/-- One handler invocation: which handler ran, on which stream. -/
structure Invocation (H : Type) where
  handler : H
  stream : HandlerStream
  deriving DecidableEq

variable {H : Type}

/-- SwitchableSegmentReader.SwitchReader (lines 33-37): replace the active
handler. -/
def SwitchableSegmentReader.SwitchReader (sr : SwitchableSegmentReader H)
    (newReader : H) : SwitchableSegmentReader H :=
  { sr with reader := newReader }

/-- SwitchableSegmentReader.Read (lines 39-43): dispatch the given stream to
the currently active handler; the state is unchanged. -/
def SwitchableSegmentReader.Read (sr : SwitchableSegmentReader H)
    (stream : HandlerStream) : Invocation H × SwitchableSegmentReader H :=
  (⟨sr.reader, stream⟩, sr)

/-- SwitchableSegmentReader.Close (lines 45-49): dispatch a fresh EOSReader to
the currently active handler; the handler reference is not modified. -/
def SwitchableSegmentReader.Close (sr : SwitchableSegmentReader H) :
    Invocation H × SwitchableSegmentReader H :=
  (⟨sr.reader, .eosReader ⟨⟩⟩, sr)

/-- RWMutex acquisition side. -/
inductive LockMode where
  | shared
  | exclusive
  deriving DecidableEq

/-- Whether two RWMutex acquisitions exclude one another: an exclusive
acquisition conflicts with every other acquisition, two shared ones may be
held at once. -/
def LockMode.conflictsWith : LockMode → LockMode → Bool
  | .exclusive, _ => true
  | _, .exclusive => true
  | .shared, .shared => false

/-- SwitchReader takes sr.mu.Lock() (line 34): the exclusive, write side. -/
def switchReaderLockMode : LockMode := .exclusive

/-- SwitchableSegmentReader.Read takes sr.mu.RLock() (line 40): the shared
side. -/
def dispatchLockMode : LockMode := .shared

/-- Close takes sr.mu.RLock() (line 46): the shared side. -/
def closeLockMode : LockMode := .shared

/-- Failing trace for claim C1, second Read: a fresh subscriber performs one
successful Read (the response carries sequence 0), the background preconnect
then stores connection number 1 as the pending one, and a second Read
consumes it. -/
def c1SecondRead : ReadOutcome :=
  (backgroundPreconnect
    ((NewTrickleSubscriber ("host")).Read (.ok ⟨"0", "", 0⟩)).state
    (.ok ⟨"1", "", 1⟩)).Read (.error ("unused"))

/-- Failing trace for claim C1, third Read: after the second Read the
background preconnect for the following segment fails, and a third Read
call runs. -/
def c1ThirdRead : ReadOutcome :=
  (backgroundPreconnect c1SecondRead.state (.error ("connection refused"))).Read
    (.error ("unused"))

/-- Claim C1, evaluation of the code at the failing trace: the second Read
hands connection number 1 (taken from pendingGet) to the caller, yet leaves
it in pendingGet; after the failed background preconnect the third Read
returns connection number 1 to the caller a second time, contradicting the
pending-connection invariant. -/
theorem C1_returned_connection_repeats :
    c1SecondRead.result = .stream ⟨"1", "", 1⟩ ∧
      c1SecondRead.state.pendingGet = some ⟨"1", "", 1⟩ ∧
      c1ThirdRead.result = .stream ⟨"1", "", 1⟩ := by
  decide

/-- Claim C2, counterexample: starting from a fresh subscriber whose every
synchronous preconnect fails, the 6th Read call does not return the
exhausted-retries outcome: the error counter is 5 at entry, the guard tests
for strictly more than 5, so this call still performs a network attempt and
returns that attempt's connect error. -/
theorem C2_sixth_read_not_exhausted :
    (iterateReadErr (NewTrickleSubscriber ("host")) 5).result ≠ ReadResult.exhausted ∧
      (iterateReadErr (NewTrickleSubscriber ("host")) 5).result = .err ("connect refused") ∧
      (iterateReadErr (NewTrickleSubscriber ("host")) 5).syncAttempted = true := by
  decide

/-- Claim C2 as amended: whenever preconnectErrorCount exceeds 5 at the start
of Read, Read returns the exhausted-retries outcome at once, with no
synchronous network attempt, no background preconnect, and an unchanged
state; consequently, after exactly 6 consecutive connect failures it is the
7th Read call, not the 6th, that returns exhausted-retries and performs no
network I/O. -/
theorem C2_exhausted_guard :
    (∀ (c : TrickleSubscriber) (net : NetResult), c.preconnectErrorCount > 5 →
        c.Read net = ⟨.exhausted, c, false, false⟩) ∧
      (iterateReadErr (NewTrickleSubscriber ("host")) 6).result = .exhausted ∧
      (iterateReadErr (NewTrickleSubscriber ("host")) 6).syncAttempted = false ∧
      (iterateReadErr (NewTrickleSubscriber ("host")) 6).backgroundLaunched = false := by
  refine ⟨?_, by decide, by decide, by decide⟩
  intro c net h
  simp [TrickleSubscriber.Read, h]

/-- Instantiation of the exhausted guard at a concrete subscriber whose
counter is 6. -/
theorem C2_exhausted_guard_witness :
    TrickleSubscriber.Read ⟨"host", none, -1, 6⟩ (.error ("x")) =
      ⟨.exhausted, ⟨"host", none, -1, 6⟩, false, false⟩ :=
  C2_exhausted_guard.1 ⟨"host", none, -1, 6⟩ (.error ("x")) (by decide)

/-- Claim C3, counterexample: a successful Read over a response with a
non-numeric Lp-Trickle-Seq header does not fall back to the -1 construction
sentinel. GetSeq yields -98, the guard only skips the advance for -1, so the
tracked index becomes -97 and the next fetch is issued for index -97. -/
theorem C3_fallback_not_construction_sentinel :
    ((NewTrickleSubscriber ("host")).Read (.ok ⟨"garbage", "", 0⟩)).state.idx = -97 ∧
      ((NewTrickleSubscriber ("host")).Read (.ok ⟨"garbage", "", 0⟩)).state.idx ≠ -1 ∧
      connectUrl ((NewTrickleSubscriber ("host")).Read (.ok ⟨"garbage", "", 0⟩)).state =
        "host/-97" := by
  decide

/-- Claim C3 as amended: a missing or unparsable Lp-Trickle-Seq header does
not fail the Read — the connection is still returned as a stream — and the
index used for the next fetch becomes -97 (GetSeq's internal -98 fallback,
plus one): a negative latest-like index, but not the -1 sentinel chosen at
construction. -/
theorem C3_unparsable_seq_fallback (c : TrickleSubscriber) (net : NetResult)
    (conn : Response) (hc : c.preconnectErrorCount ≤ 5)
    (hconn : usedConn c net = some conn) (heos : IsEOS conn = false)
    (hseq : Atoi conn.seqHeader = none) :
    (c.Read net).result = .stream conn ∧ (c.Read net).state.idx = -97 := by
  have hng : ¬ c.preconnectErrorCount > 5 := by omega
  have hw : wrap64 (-98 + 1) = -97 := by decide
  have hw2 : wrap64 (-97) = -97 := by decide
  cases hp : c.pendingGet with
  | some conn2 =>
    have he : conn2 = conn := by simpa [usedConn, hp] using hconn
    subst he
    simp [TrickleSubscriber.Read, hp, hng, heos, advanceIdx, GetSeq, hseq, hw, hw2]
  | none =>
    cases net with
    | error e => simp [usedConn, hp] at hconn
    | ok p =>
      have he : p = conn := by simpa [usedConn, hp] using hconn
      subst he
      simp [TrickleSubscriber.Read, hp, hng, heos, advanceIdx, GetSeq, hseq, hw, hw2]

/-- Instantiation of the unparsable-header fallback at a concrete subscriber
holding a pending connection whose sequence header is garbage. -/
theorem C3_unparsable_seq_fallback_witness :
    ((TrickleSubscriber.Read ⟨"host", some ⟨"garbage", "", 0⟩, 4, 2⟩ (.error ("x"))).result =
        .stream ⟨"garbage", "", 0⟩ ∧
      (TrickleSubscriber.Read ⟨"host", some ⟨"garbage", "", 0⟩, 4, 2⟩
        (.error ("x"))).state.idx = -97) :=
  C3_unparsable_seq_fallback ⟨"host", some ⟨"garbage", "", 0⟩, 4, 2⟩ (.error ("x"))
    ⟨"garbage", "", 0⟩ (by decide) (by decide) (by decide) (by decide)

/-- Claim C4, counterexample, two failing runs: after a fetch carrying
sequence 7 the index is 8, but a subsequent successful fetch with an
unparsable sequence header drags the index down to -97, below the last
concrete sequence 7; and a fetch carrying the largest parseable sequence,
2 ^ 63 - 1, wraps the 64-bit index to -(2 ^ 63), again below the last
concrete sequence seen. -/
theorem C4_progress_not_monotone :
    lastConcrete [⟨"7", "", 0⟩, ⟨"garbage", "", 1⟩] = some 7 ∧
      (fetchTrace (NewTrickleSubscriber ("host"))
        [⟨"7", "", 0⟩, ⟨"garbage", "", 1⟩]).idx = -97 ∧
      ¬ (fetchTrace (NewTrickleSubscriber ("host"))
        [⟨"7", "", 0⟩, ⟨"garbage", "", 1⟩]).idx > 7 ∧
      lastConcrete [⟨"9223372036854775807", "", 2⟩] = some (2 ^ 63 - 1) ∧
      (fetchTrace (NewTrickleSubscriber ("host"))
        [⟨"9223372036854775807", "", 2⟩]).idx = -(2 ^ 63) ∧
      ¬ (fetchTrace (NewTrickleSubscriber ("host"))
        [⟨"9223372036854775807", "", 2⟩]).idx > 2 ^ 63 - 1 := by
  decide

/-- Bounds guaranteed by a successful Atoi parse: the value fits in a 64-bit
int, larger magnitudes having been rejected as range errors. -/
theorem Atoi_range (s : String) (i : Int) (h : Atoi s = some i) :
    -(2 ^ 63) ≤ i ∧ i < 2 ^ 63 := by
  unfold Atoi at h
  split at h
  · split at h
    · split at h
      · injection h with h
        omega
      · exact Option.noConfusion h
    · exact Option.noConfusion h
  · split at h
    · split at h
      · injection h with h
        omega
      · exact Option.noConfusion h
    · exact Option.noConfusion h
  · split at h
    · split at h
      · injection h with h
        omega
      · exact Option.noConfusion h
    · exact Option.noConfusion h

/-- A value already inside the 64-bit range is unchanged by the wraparound. -/
theorem wrap64_eq_self (n : Int) (h1 : -(2 ^ 63) ≤ n) (h2 : n < 2 ^ 63) :
    wrap64 n = n := by
  unfold wrap64
  omega

/-- Unfolding of seqOk: the parsed sequence value together with its
overflow-safety bound. -/
theorem seqOk_elim (r : Response) (h : seqOk r = true) :
    ∃ i, Atoi r.seqHeader = some i ∧ i < 2 ^ 63 - 1 := by
  unfold seqOk at h
  split at h
  · rename_i i hi
    exact ⟨i, hi, of_decide_eq_true h⟩
  · exact Bool.noConfusion h

/-- Invariant behind the amended claim C4: if the starting index already
exceeds any previously observed concrete sequence, then after a run of
fetches whose sequence headers all parse to overflow-safe values, the index
exceeds the last concrete sequence of the run. -/
theorem fetchTrace_idx_gt_aux (l : List Response) :
    ∀ (acc : Option Int) (c : TrickleSubscriber),
      (∀ r ∈ l, seqOk r = true) →
      (∀ a, acc = some a → c.idx > a) →
      ∀ s, lastConcreteAux acc l = some s → (fetchTrace c l).idx > s := by
  induction l with
  | nil =>
    intro acc c _ hacc s hlast
    exact hacc s hlast
  | cons r t ih =>
    intro acc c hall hacc s hlast
    obtain ⟨i, hi, hub⟩ := seqOk_elim r (hall r (by simp))
    have hlb := Atoi_range r.seqHeader i hi
    have hallt : ∀ r2 ∈ t, seqOk r2 = true := by
      intro r2 hr2
      exact hall r2 (by simp [hr2])
    by_cases hone : i = -1
    · subst hone
      have hadv : advanceIdx c r = c := by
        simp [advanceIdx, GetSeq, hi]
      have hlast2 : lastConcreteAux acc t = some s := by
        simpa [lastConcreteAux, concreteSeq, hi] using hlast
      have := ih acc (advanceIdx c r) hallt (by rw [hadv]; exact hacc) s hlast2
      simpa [fetchTrace] using this
    · have hw : wrap64 (i + 1) = i + 1 :=
        wrap64_eq_self (i + 1) (by omega) (by omega)
      have hadv : advanceIdx c r = { c with idx := i + 1 } := by
        simp [advanceIdx, GetSeq, hi, hone, hw]
      have hlast2 : lastConcreteAux (some i) t = some s := by
        simpa [lastConcreteAux, concreteSeq, hi, hone] using hlast
      have hacc2 : ∀ a, some i = some a → (advanceIdx c r).idx > a := by
        intro a ha
        cases ha
        rw [hadv]
        exact lt_add_one i
      have := ih (some i) (advanceIdx c r) hallt hacc2 s hlast2
      simpa [fetchTrace] using this

/-- Claim C4 as amended: over any run of successful fetches in which every
response carries a parseable Lp-Trickle-Seq value below 2 ^ 63 - 1 (so that
the 64-bit advance cannot overflow), once a concrete (non -1) sequence
number has been observed, the index requested on each subsequent fetch is
strictly greater than the last concrete sequence number seen. Both provisos
are forced by the counterexample: an unparsable header resets the index to
-97, and the maximal parseable sequence wraps the index to -(2 ^ 63). -/
theorem C4_index_above_last_concrete (l : List Response) (c : TrickleSubscriber)
    (s : Int) (hall : ∀ r ∈ l, seqOk r = true)
    (hlast : lastConcrete l = some s) :
    (fetchTrace c l).idx > s :=
  fetchTrace_idx_gt_aux l none c hall (fun _a ha => Option.noConfusion ha) s hlast

/-- Instantiation of the amended progress claim on a run carrying sequence
numbers 7 then 3: the final index 4 exceeds the last concrete sequence 3,
both headers being parseable and overflow-safe. -/
theorem C4_index_above_last_concrete_witness :
    (fetchTrace (NewTrickleSubscriber ("host")) [⟨"7", "", 0⟩, ⟨"3", "", 1⟩]).idx > 3 :=
  C4_index_above_last_concrete [⟨"7", "", 0⟩, ⟨"3", "", 1⟩]
    (NewTrickleSubscriber ("host")) 3 (by decide) (by decide)

/-- Claim C5: when the connection a Read call operates on carries a non-empty
Lp-Trickle-Closed header, Read returns the EndOfStream outcome and no
stream, and the EOS branch itself leaves preconnectErrorCount untouched:
taken from pendingGet the counter keeps exactly its entry value, and taken
from a successful synchronous preconnect it is 0 — the value that
preconnect's success had already written, EOS or not. -/
theorem C5_eos_outcome (c : TrickleSubscriber) (net : NetResult) (conn : Response)
    (hc : c.preconnectErrorCount ≤ 5)
    (hconn : usedConn c net = some conn) (heos : IsEOS conn = true) :
    (c.Read net).result = .eos ∧
      (∀ r, (c.Read net).result ≠ .stream r) ∧
      (c.pendingGet = some conn →
        (c.Read net).state.preconnectErrorCount = c.preconnectErrorCount) ∧
      (c.pendingGet = none → (c.Read net).state.preconnectErrorCount = 0) := by
  have hng : ¬ c.preconnectErrorCount > 5 := by omega
  cases hp : c.pendingGet with
  | some conn2 =>
    have he : conn2 = conn := by simpa [usedConn, hp] using hconn
    subst he
    refine ⟨?_, ?_, ?_, ?_⟩
    · simp [TrickleSubscriber.Read, hp, hng, heos]
    · intro r
      simp [TrickleSubscriber.Read, hp, hng, heos]
    · intro _
      simp [TrickleSubscriber.Read, hp, hng, heos]
    · intro h
      exact Option.noConfusion h
  | none =>
    cases net with
    | error e => simp [usedConn, hp] at hconn
    | ok p =>
      have he : p = conn := by simpa [usedConn, hp] using hconn
      subst he
      refine ⟨?_, ?_, ?_, ?_⟩
      · simp [TrickleSubscriber.Read, hp, hng, heos]
      · intro r
        simp [TrickleSubscriber.Read, hp, hng, heos]
      · intro h
        exact Option.noConfusion h
      · intro _
        simp [TrickleSubscriber.Read, hp, hng, heos]

/-- Instantiation of the EndOfStream outcome at a concrete subscriber whose
pending connection carries a closed header. -/
theorem C5_eos_outcome_witness :
    (TrickleSubscriber.Read ⟨"host", some ⟨"", "1", 0⟩, 3, 2⟩ (.error ("x"))).result =
        ReadResult.eos ∧
      (TrickleSubscriber.Read ⟨"host", some ⟨"", "1", 0⟩, 3,
        2⟩ (.error ("x"))).state.preconnectErrorCount = 2 :=
  ⟨(C5_eos_outcome ⟨"host", some ⟨"", "1", 0⟩, 3, 2⟩ (.error ("x")) ⟨"", "1", 0⟩
      (by decide) (by decide) (by decide)).1,
    (C5_eos_outcome ⟨"host", some ⟨"", "1", 0⟩, 3, 2⟩ (.error ("x")) ⟨"", "1", 0⟩
      (by decide) (by decide) (by decide)).2.2.1 rfl⟩

/-- Claim C6, counterexample: Close acquires the RWMutex with RLock, the
shared side, not the exclusive side the claim asserts. -/
theorem C6_close_lock_is_shared :
    closeLockMode = LockMode.shared ∧ closeLockMode ≠ LockMode.exclusive := by
  decide

/-- Claim C6 as amended: Dispatch and Close both acquire the read/write lock
in shared mode, and SwitchReader acquires it exclusively; since the only
writer of the handler reference holds the exclusive side, its acquisition
conflicts with every dispatch (and close) acquisition, so no Dispatch running
concurrently with a SwitchReader observes a partially updated handler. -/
theorem C6_lock_modes :
    dispatchLockMode = LockMode.shared ∧
      closeLockMode = LockMode.shared ∧
      switchReaderLockMode = LockMode.exclusive ∧
      LockMode.conflictsWith switchReaderLockMode dispatchLockMode = true ∧
      LockMode.conflictsWith switchReaderLockMode closeLockMode = true := by
  decide

/-- Claim C7: Close invokes the handler that is active at that moment with
the synthetic EOSReader stream, leaves the handler reference itself
unchanged, and every read from an EOSReader returns zero bytes together with
io.EOF — never any data. -/
theorem C7_close_eos_dispatch (H : Type) (sr : SwitchableSegmentReader H) :
    sr.Close = (⟨sr.reader, HandlerStream.eosReader ⟨⟩⟩, sr) ∧
      (sr.Close.2.reader = sr.reader) ∧
      ∀ (r : EOSReader) (p : Nat), r.Read p = (0, some MediaReadError.eof) :=
  ⟨rfl, rfl, fun _r _p => rfl⟩

/-- Claim C8, counterexample: at the 64-bit boundary the advance is not
sequence plus one. A response carrying Lp-Trickle-Seq 9223372036854775807
(the largest value Atoi accepts) is returned as a stream, but the Go int
increment wraps, so the tracked index becomes -(2 ^ 63) rather than
sequence plus one. -/
theorem C8_seq_overflow_wraps :
    (TrickleSubscriber.Read ⟨"host", some ⟨"9223372036854775807", "", 0⟩, -1,
        0⟩ (.error ("x"))).result = .stream ⟨"9223372036854775807", "", 0⟩ ∧
      (TrickleSubscriber.Read ⟨"host", some ⟨"9223372036854775807", "", 0⟩, -1,
        0⟩ (.error ("x"))).state.idx = -(2 ^ 63) ∧
      (TrickleSubscriber.Read ⟨"host", some ⟨"9223372036854775807", "", 0⟩, -1,
        0⟩ (.error ("x"))).state.idx ≠ (2 ^ 63 - 1) + 1 := by
  decide

/-- Claim C8 as amended: when the connection a Read call operates on carries
a concrete sequence number i (parsed, different from -1) below the 64-bit
maximum 2 ^ 63 - 1, and is not end-of-stream, Read returns that connection
as a stream, advances the tracked index to i + 1, and the following fetch is
issued against the url for index i + 1. At i = 2 ^ 63 - 1 the increment
wraps to -(2 ^ 63) instead, as the counterexample shows. -/
theorem C8_concrete_seq_advances (c : TrickleSubscriber) (net : NetResult)
    (conn : Response) (i : Int) (hc : c.preconnectErrorCount ≤ 5)
    (hconn : usedConn c net = some conn) (heos : IsEOS conn = false)
    (hseq : Atoi conn.seqHeader = some i) (hi : i ≠ -1)
    (hub : i < 2 ^ 63 - 1) :
    (c.Read net).result = .stream conn ∧
      (c.Read net).state.idx = i + 1 ∧
      connectUrl (c.Read net).state = c.url ++ "/" ++ toString (i + 1) := by
  have hng : ¬ c.preconnectErrorCount > 5 := by omega
  have hlb := Atoi_range conn.seqHeader i hseq
  have hw : wrap64 (i + 1) = i + 1 := wrap64_eq_self (i + 1) (by omega) (by omega)
  cases hp : c.pendingGet with
  | some conn2 =>
    have he : conn2 = conn := by simpa [usedConn, hp] using hconn
    subst he
    simp [TrickleSubscriber.Read, hp, hng, heos, advanceIdx, GetSeq, hseq, hi, hw, connectUrl]
  | none =>
    cases net with
    | error e => simp [usedConn, hp] at hconn
    | ok p =>
      have he : p = conn := by simpa [usedConn, hp] using hconn
      subst he
      simp [TrickleSubscriber.Read, hp, hng, heos, advanceIdx, GetSeq, hseq, hi, hw, connectUrl]

/-- Instantiation of the index advance at a pending connection carrying
sequence number 7: the next fetch goes to index 8. -/
theorem C8_concrete_seq_advances_witness :
    ((TrickleSubscriber.Read ⟨"host", some ⟨"7", "", 0⟩, -1, 0⟩ (.error ("x"))).result =
        .stream ⟨"7", "", 0⟩ ∧
      (TrickleSubscriber.Read ⟨"host", some ⟨"7", "", 0⟩, -1, 0⟩ (.error ("x"))).state.idx =
        7 + 1 ∧
      connectUrl (TrickleSubscriber.Read ⟨"host", some ⟨"7", "", 0⟩, -1,
        0⟩ (.error ("x"))).state = "host" ++ "/" ++ toString ((7 : Int) + 1)) :=
  C8_concrete_seq_advances ⟨"host", some ⟨"7", "", 0⟩, -1, 0⟩ (.error ("x"))
    ⟨"7", "", 0⟩ 7 (by decide) (by decide) (by decide) (by decide) (by decide)
    (by decide)

/-- Claim C9: when no pending connection exists and the synchronous
preconnect fails, Read returns exactly that failure, increments
preconnectErrorCount by one, and leaves everything else — the index and the
empty pending slot included — unchanged, so the caller may retry at the same
index. -/
theorem C9_sync_preconnect_failure (c : TrickleSubscriber) (e : String)
    (hc : c.preconnectErrorCount ≤ 5) (hp : c.pendingGet = none) :
    c.Read (.error e) =
      ⟨.err e, { c with preconnectErrorCount := c.preconnectErrorCount + 1 },
        true, false⟩ := by
  have hng : ¬ c.preconnectErrorCount > 5 := by omega
  simp [TrickleSubscriber.Read, hp, hng]

/-- Instantiation of the synchronous-failure behavior at a fresh subscriber. -/
theorem C9_sync_preconnect_failure_witness :
    TrickleSubscriber.Read (NewTrickleSubscriber ("host")) (.error ("refused")) =
      ⟨.err ("refused"), { NewTrickleSubscriber ("host") with preconnectErrorCount := 1 },
        true, false⟩ :=
  C9_sync_preconnect_failure (NewTrickleSubscriber ("host")) ("refused")
    (by decide) (by decide)

/-- Claim C10: when the pending connection signals end of stream, Read
returns EndOfStream and leaves the entire state — the pending connection
included — untouched, with no synchronous attempt and no background
preconnect launched; hence every Read in any subsequent run of calls also
returns EndOfStream with no network I/O. -/
theorem C10_eos_absorbing (c : TrickleSubscriber) (conn : Response)
    (hc : c.preconnectErrorCount ≤ 5) (hp : c.pendingGet = some conn)
    (heos : IsEOS conn = true) :
    (∀ net : NetResult, c.Read net = ⟨.eos, c, false, false⟩) ∧
      ∀ (nets : List NetResult) (o : ReadOutcome), o ∈ ReadSeq c nets →
        o = ⟨.eos, c, false, false⟩ := by
  have hng : ¬ c.preconnectErrorCount > 5 := by omega
  have step : ∀ net : NetResult, c.Read net = ⟨.eos, c, false, false⟩ := by
    intro net
    simp [TrickleSubscriber.Read, hp, hng, heos]
  refine ⟨step, ?_⟩
  intro nets
  induction nets with
  | nil =>
    intro o ho
    simp [ReadSeq] at ho
  | cons n rest ih =>
    intro o ho
    rw [ReadSeq, step n] at ho
    rcases List.mem_cons.mp ho with h | h
    · exact h
    · exact ih o h

/-- Instantiation of the absorbing end-of-stream state: two further Read
calls on a subscriber whose pending connection is closed both return
EndOfStream without any network activity. -/
theorem C10_eos_absorbing_witness :
    TrickleSubscriber.Read ⟨"host", some ⟨"", "1", 5⟩, 3, 0⟩ (.error ("x")) =
        ⟨.eos, ⟨"host", some ⟨"", "1", 5⟩, 3, 0⟩, false, false⟩ ∧
      ∀ o ∈ ReadSeq ⟨"host", some ⟨"", "1", 5⟩, 3, 0⟩ [.error ("x"), .ok ⟨"9", "", 9⟩],
        o = ⟨.eos, ⟨"host", some ⟨"", "1", 5⟩, 3, 0⟩, false, false⟩ :=
  ⟨(C10_eos_absorbing ⟨"host", some ⟨"", "1", 5⟩, 3, 0⟩ ⟨"", "1", 5⟩
      (by decide) (by decide) (by decide)).1 (.error ("x")),
    fun o ho => (C10_eos_absorbing ⟨"host", some ⟨"", "1", 5⟩, 3, 0⟩ ⟨"", "1", 5⟩
      (by decide) (by decide) (by decide)).2 [.error ("x"), .ok ⟨"9", "", 9⟩] o ho⟩
